import Mathlib

/-!
Verification of the orbital backend adapter, backend runner and ScrollViewer
widget of the orbtk repository (src/backend/orbital/backend.rs and
src/widget/scroll_viewer.rs), as a shallow embedding: the stateful Rust code
becomes explicit state passing over Lean structures, and the native
windowing / event-queue / world collaborators that are external to the
excerpt are modelled from the design document.
-/

namespace OrbTk

/-- A 2D integer point; mirrors `crate::properties::Point` as used by the
backend (`mouse_position.x/.y` store the `i32` coordinates of native mouse
events). `Point::default()` is the origin. -/
structure Point where
  x : Int
  y : Int
deriving DecidableEq, Repr

def Point.default : Point := ⟨0, 0⟩

/-- Mirrors `crate::event::MouseButton`. -/
inductive MouseButton
  | Left
  | Middle
  | Right
deriving DecidableEq, Repr

/-- Modelled from the spec: the toolkit `Key` type is "enumerated symbolic
keys (Backspace, Up, Down, Left, Right, Enter) plus a fallback constructed
from a raw character" (its defining module is not part of the excerpt). -/
inductive Key
  | Backspace
  | Up
  | Down
  | Left
  | Right
  | Enter
  | Character (c : Char)
deriving DecidableEq, Repr

/-- Modelled from the spec: `Key::from(character)` is the "fallback
constructed from a raw character". -/
def Key.fromCharacter (c : Char) : Key := Key.Character c

/-- The toolkit events registered by the backend: mirrors the variants used
in `drain_events` (`MouseDownEvent`, `MouseUpEvent`, `KeyDownEvent`,
`KeyUpEvent`, `SystemEvent::Quit`, `WindowEvent::Resize`). -/
inductive Event
  | MouseDown (button : MouseButton) (position : Point)
  | MouseUp (button : MouseButton) (position : Point)
  | KeyDown (key : Key)
  | KeyUp (key : Key)
  | SystemQuit
  | WindowResize (width height : Nat)
deriving DecidableEq, Repr

/-- `true` exactly on `MouseUp` events. -/
def Event.isMouseUp : Event → Bool
  | Event.MouseUp _ _ => true
  | _ => false

/-- `true` exactly on `MouseDown` events. -/
def Event.isMouseDown : Event → Bool
  | Event.MouseDown _ _ => true
  | _ => false

/-- Modelled from the spec: the `EventQueue` is "an ordered buffer of
pending input/system events", each "pushed to the queue with a
priority/order tag" (its defining module is not part of the excerpt). -/
abbrev EventQueue := List (Event × Nat)

/-- Modelled from the spec: `EventQueue::register_event(event, priority)`
appends the event with its priority/order tag to the ordered buffer. -/
def EventQueue.register_event (q : EventQueue) (e : Event) (p : Nat) : EventQueue :=
  q ++ [(e, p)]

/-- Native (orbclient) events as consumed by `drain_events`: the five
variants the backend matches on (`Mouse`, `Button`, `Key`, `Quit`,
`Resize`) plus representatives of the variants that fall into the
catch-all `_ => {}` arm. -/
inductive NativeEvent
  | Mouse (x y : Int)
  | Button (left middle right : Bool)
  | Key (character : Char) (scancode : Nat) (pressed : Bool)
  | Quit
  | Resize (width height : Nat)
  | TextInput (c : Char)
  | Scroll (x y : Int)
  | Focus (focused : Bool)
  | MoveWindow (x y : Int)
  | Screen (width height : Nat)
  | Unknown (code : Nat)
deriving DecidableEq, Repr

/-- orbclient scancode constant `K_BKSP`. -/
def K_BKSP : Nat := 0x0E
/-- orbclient scancode constant `K_UP`. -/
def K_UP : Nat := 0x48
/-- orbclient scancode constant `K_DOWN`. -/
def K_DOWN : Nat := 0x50
/-- orbclient scancode constant `K_LEFT`. -/
def K_LEFT : Nat := 0x4B
/-- orbclient scancode constant `K_RIGHT`. -/
def K_RIGHT : Nat := 0x4D

/-- The backend-adapter state owned by `OrbitalBackend`: the stored mouse
button tri-state, the last recorded mouse position, and the shared event
queue. (The native window handle is passed separately where needed; the
theme is opaque and irrelevant to the claims.) -/
structure OrbitalBackend where
  mouse_buttons : Bool × Bool × Bool
  mouse_position : Point
  event_queue : EventQueue
deriving DecidableEq, Repr

/-- `OrbitalBackend::new`: stored tri-state all false, position at default,
empty queue. -/
def OrbitalBackend.new : OrbitalBackend :=
  { mouse_buttons := (false, false, false)
    mouse_position := Point.default
    event_queue := [] }

/-- The translation performed on one native event by the `match` inside
`OrbitalBackend::drain_events` (backend.rs lines 87-176), as a state
transformer on the backend. -/
def process_event (s : OrbitalBackend) (ev : NativeEvent) : OrbitalBackend :=
  match ev with
  | NativeEvent.Mouse x y =>
      { s with mouse_position := ⟨x, y⟩ }
  | NativeEvent.Button left middle right =>
      let s1 :=
        if !left && !middle && !right then
          let button :=
            if s.mouse_buttons.1 then MouseButton.Left
            else if s.mouse_buttons.2.1 then MouseButton.Middle
            else MouseButton.Right
          { s with event_queue :=
              s.event_queue.register_event (Event.MouseUp button s.mouse_position) 0 }
        else
          let button :=
            if left then MouseButton.Left
            else if middle then MouseButton.Middle
            else MouseButton.Right
          { s with event_queue :=
              s.event_queue.register_event (Event.MouseDown button s.mouse_position) 0 }
      { s1 with mouse_buttons := (left, middle, right) }
  | NativeEvent.Key character scancode pressed =>
      let key :=
        if scancode = K_BKSP then Key.Backspace
        else if scancode = K_UP then Key.Up
        else if scancode = K_DOWN then Key.Down
        else if scancode = K_LEFT then Key.Left
        else if scancode = K_RIGHT then Key.Right
        else if character = '\n' then Key.Enter
        else Key.fromCharacter character
      if pressed then
        { s with event_queue := s.event_queue.register_event (Event.KeyUp key) 0 }
      else
        { s with event_queue := s.event_queue.register_event (Event.KeyDown key) 0 }
  | NativeEvent.Quit =>
      { s with event_queue := s.event_queue.register_event Event.SystemQuit 0 }
  | NativeEvent.Resize width height =>
      { s with event_queue := s.event_queue.register_event (Event.WindowResize width height) 0 }
  | _ => s

/-- Modelled from the spec: the native windowing surface holds an event
stream; its synchronize operation "forces any pending native event
delivery" and returns a success flag, and the event iterator yields the
delivered pending events. `buffered` are events the windowing system has
not yet delivered; `delivered` are events already available to the event
iterator. -/
structure OrbWindow where
  buffered : List NativeEvent
  delivered : List NativeEvent
deriving DecidableEq, Repr

/-- Modelled from the spec: `Window::sync` flushes and forces pending
native event delivery, returning a success flag. -/
def OrbWindow.sync (w : OrbWindow) : OrbWindow × Bool :=
  ({ buffered := [], delivered := w.delivered ++ w.buffered }, true)

/-- Modelled from the spec: `Window::events` yields the delivered pending
native events, consuming them. -/
def OrbWindow.events (w : OrbWindow) : List NativeEvent × OrbWindow :=
  (w.delivered, { w with delivered := [] })

/-- `OrbitalBackend::drain_events` (backend.rs lines 83-178): synchronizes
the native window first (the boolean success code is discarded), then
iterates the pending native events, translating each with `process_event`. -/
def OrbitalBackend.drain_events (s : OrbitalBackend) (w : OrbWindow) :
    OrbitalBackend × OrbWindow :=
  let w1 := (w.sync).1
  let evs := (w1.events).1
  let w2 := (w1.events).2
  (evs.foldl process_event s, w2)

/-- Modelled from the spec: the toolkit `World` exposes one operation,
"advance one tick", which "internally dispatches queued events against the
widget tree"; queued events are "consumed by the toolkit's dispatch
systems during the run phase, then discarded (queue is drained, not
persisted)". We record the events the world has dispatched and the number
of ticks taken. -/
structure World where
  processed : List (Event × Nat)
  ticks : Nat
deriving DecidableEq, Repr

/-- Modelled from the spec: `World::run` advances one tick, dispatching
(and draining) the queued events. -/
def World.run (w : World) (q : EventQueue) : World × EventQueue :=
  ({ processed := w.processed ++ q, ticks := w.ticks + 1 }, [])

/-- One observable action of a runner-loop iteration, in the order the
iteration body of `OrbitalBackendRunner::run` performs it. -/
inductive Step
  | worldTick
  | clearUpdate
  | drainEvents
deriving DecidableEq, Repr

/-- The state driven by `OrbitalBackendRunner::run`: the optional attached
world, the backend, and the shared "needs update" flag cell. -/
structure RunnerState where
  world : Option World
  backend : OrbitalBackend
  update : Bool
deriving DecidableEq, Repr

/-- The external inputs one loop iteration observes: the value of the
shared "keep running" flag at the check at the top of the iteration, and
the native events pending at the window when `drain_events` runs. -/
structure IterInput where
  running : Bool
  native : List NativeEvent
deriving DecidableEq, Repr

/-- The body of one iteration of the loop in `OrbitalBackendRunner::run`
(backend.rs lines 232-238), after the running-flag check: tick the world
if one is attached (`if let Some(world) = &mut self.world { world.run() }`),
clear the update flag (`update.set(false)`), then drain backend events.
Also returns the trace of actions performed, in order. -/
def run_iteration (s : RunnerState) (native : List NativeEvent) :
    RunnerState × List Step :=
  match s.world with
  | some w =>
      let w2 := (w.run s.backend.event_queue).1
      let q2 := (w.run s.backend.event_queue).2
      let s2 : RunnerState :=
        { world := some w2
          backend := { s.backend with event_queue := q2 }
          update := false }
      let b2 := (s2.backend.drain_events { buffered := native, delivered := [] }).1
      ({ s2 with backend := b2 },
       [Step.worldTick, Step.clearUpdate, Step.drainEvents])
  | none =>
      let s2 : RunnerState := { s with update := false }
      let b2 := (s2.backend.drain_events { buffered := native, delivered := [] }).1
      ({ s2 with backend := b2 }, [Step.clearUpdate, Step.drainEvents])

/-- The loop of `OrbitalBackendRunner::run` (backend.rs lines 227-239),
driven by the per-iteration external inputs: each iteration first checks
the shared running flag (`if !running.get() { break; }`) and breaks if it
is false, otherwise executes the iteration body. Returns the final state
and the number of iteration bodies executed. The input list bounds the
observed execution (the Rust loop itself runs until the flag is cleared). -/
def run_loop (s : RunnerState) (inputs : List IterInput) : RunnerState × Nat :=
  match inputs with
  | [] => (s, 0)
  | inp :: rest =>
      if !inp.running then (s, 0)
      else
        let p := run_loop (run_iteration s inp.native).1 rest
        (p.1, p.2 + 1)

/-- Number of ticks the attached world has taken (0 when no world). -/
def RunnerState.tickCount (s : RunnerState) : Nat :=
  match s.world with
  | some w => w.ticks
  | none => 0

/-- Modelled from the spec: the scroll offset, "a 2D value", zero by
default (its defining module is not part of the excerpt). -/
structure Offset where
  x : Int
  y : Int
deriving DecidableEq, Repr

def Offset.default : Offset := ⟨0, 0⟩

/-- Modelled from the spec: a bindable widget property holding a value
(its defining module is not part of the excerpt). -/
structure Property (α : Type) where
  value : α
deriving DecidableEq, Repr

/-- `Property::new`. -/
def Property.new {α : Type} (v : α) : Property α := ⟨v⟩

/-- Mirrors `widget::Template` as used by `ScrollViewer::template`: either
empty or wrapping exactly one (shared) child. `W` stands for the dynamic
widget type behind `Rc<Widget>`; sharing an `Rc` clone is sharing the same
referenced child. -/
inductive Template (W : Type)
  | Empty
  | Single (child : W)
deriving DecidableEq, Repr

/-- Mirrors `ScrollViewer` (scroll_viewer.rs): an optional shared child
and a bindable offset property. -/
structure ScrollViewer (W : Type) where
  child : Option W
  offset : Property Offset
deriving DecidableEq, Repr

/-- `ScrollViewer::default()`: no child, zero offset. -/
def ScrollViewer.default (W : Type) : ScrollViewer W :=
  { child := none, offset := Property.new Offset.default }

/-- `ScrollViewer::template` (scroll_viewer.rs lines 23-30): a single-child
template referencing the same (cloned `Rc`) child when one is attached,
else the empty template. The debug `print!` side effect is elided. -/
def ScrollViewer.template {W : Type} (s : ScrollViewer W) : Template W :=
  match s.child with
  | some child => Template.Single child
  | none => Template.Empty

/-- Follows the spec's words (§3 invariant, §4.1 Mouse-button): the single
mouse event emitted for a native button event, obtained by diffing the
previous tri-state against the incoming one: "up" only when all three
incoming flags are simultaneously false, attributed to whichever button
was previously true, checked in the order left, middle, right (the final
arm of the checked chain being Right); otherwise "down", attributed to the
first pressed incoming button in the same order; either carries the last
recorded mouse position. -/
def specButtonDiffEvent (prev : Bool × Bool × Bool) (pos : Point)
    (left middle right : Bool) : Event :=
  if !left && !middle && !right then
    Event.MouseUp
      (if prev.1 then MouseButton.Left
       else if prev.2.1 then MouseButton.Middle
       else MouseButton.Right) pos
  else
    Event.MouseDown
      (if left then MouseButton.Left
       else if middle then MouseButton.Middle
       else MouseButton.Right) pos

/-- Follows the spec's words (§4.1 Key, §8): symbolic key resolution,
where scancode-mapped keys (Backspace/Up/Down/Left/Right) take precedence
over character-mapped keys, and a newline character always maps to Enter,
any other character falling back to the character-constructed key. -/
def specResolveKey (scancode : Nat) (character : Char) : Key :=
  if scancode = K_BKSP then Key.Backspace
  else if scancode = K_UP then Key.Up
  else if scancode = K_DOWN then Key.Down
  else if scancode = K_LEFT then Key.Left
  else if scancode = K_RIGHT then Key.Right
  else if character = '\n' then Key.Enter
  else Key.fromCharacter character

/-- C1: every native Button event enqueues exactly one event, equal to the
spec's previous-to-new diff-rule event: a MouseUp exactly when all three
incoming flags are simultaneously false (attributed to whichever stored
button was previously true, checked left, middle, right), a MouseDown
otherwise. -/
theorem C1_button_transition_diff_rule (s : OrbitalBackend) (l m r : Bool) :
    (process_event s (NativeEvent.Button l m r)).event_queue
      = s.event_queue ++ [(specButtonDiffEvent s.mouse_buttons s.mouse_position l m r, 0)]
    ∧ (specButtonDiffEvent s.mouse_buttons s.mouse_position l m r).isMouseUp
        = (!l && !m && !r)
    ∧ (specButtonDiffEvent s.mouse_buttons s.mouse_position l m r).isMouseDown
        = (l || m || r) := by
  obtain ⟨⟨b1, b2, b3⟩, pos, q⟩ := s
  refine ⟨?_, ?_, ?_⟩ <;>
    cases l <;> cases m <;> cases r <;>
      simp [process_event, specButtonDiffEvent, EventQueue.register_event,
        Event.isMouseUp, Event.isMouseDown]

/-- C2: every native Key event enqueues exactly one key event whose key is
resolved scancode-first (Backspace/Up/Down/Left/Right take precedence over
the character), falling back to the character with a newline mapping to
Enter; the enqueued event is KeyUp when the native pressed flag is true
and KeyDown when it is false (the inverted polarity). -/
theorem C2_key_translation (s : OrbitalBackend) (character : Char)
    (scancode : Nat) (pressed : Bool) :
    (process_event s (NativeEvent.Key character scancode pressed)).event_queue
      = s.event_queue.register_event
          (if pressed then Event.KeyUp (specResolveKey scancode character)
           else Event.KeyDown (specResolveKey scancode character)) 0
    ∧ (process_event s (NativeEvent.Key character scancode pressed)).mouse_buttons
        = s.mouse_buttons
    ∧ (process_event s (NativeEvent.Key character scancode pressed)).mouse_position
        = s.mouse_position
    ∧ (∀ c, specResolveKey K_BKSP c = Key.Backspace)
    ∧ (∀ c, specResolveKey K_UP c = Key.Up)
    ∧ (∀ c, specResolveKey K_DOWN c = Key.Down)
    ∧ (∀ c, specResolveKey K_LEFT c = Key.Left)
    ∧ (∀ c, specResolveKey K_RIGHT c = Key.Right)
    ∧ (scancode ≠ K_BKSP → scancode ≠ K_UP → scancode ≠ K_DOWN →
        scancode ≠ K_LEFT → scancode ≠ K_RIGHT →
        specResolveKey scancode character
          = if character = '\n' then Key.Enter
            else Key.fromCharacter character) := by
  refine ⟨?_, ?_, ?_, ?_, ?_, ?_, ?_, ?_, ?_⟩
  · cases pressed <;> simp [process_event, specResolveKey]
  · cases pressed <;> simp [process_event]
  · cases pressed <;> simp [process_event]
  · intro c; simp [specResolveKey, K_BKSP, K_UP, K_DOWN, K_LEFT, K_RIGHT]
  · intro c; simp [specResolveKey, K_BKSP, K_UP, K_DOWN, K_LEFT, K_RIGHT]
  · intro c; simp [specResolveKey, K_BKSP, K_UP, K_DOWN, K_LEFT, K_RIGHT]
  · intro c; simp [specResolveKey, K_BKSP, K_UP, K_DOWN, K_LEFT, K_RIGHT]
  · intro c; simp [specResolveKey, K_BKSP, K_UP, K_DOWN, K_LEFT, K_RIGHT]
  · intro h1 h2 h3 h4 h5; simp [specResolveKey, h1, h2, h3, h4, h5]

/-- C2 witness: concrete consequences at scancode 0 (unmapped) and at the
navigation scancodes. -/
theorem C2_key_translation_witness :
    specResolveKey 0 '\n' = Key.Enter := by
  have h := (C2_key_translation OrbitalBackend.new '\n' 0 true).2.2.2.2.2.2.2.2
    (by decide) (by decide) (by decide) (by decide) (by decide)
  simpa using h

/-- C10: every native event falling into the catch-all arm of the match in
`drain_events` (text input, scroll, focus, window move, screen, unknown)
leaves the backend state — queue, mouse position, button tri-state —
completely unchanged. -/
theorem C10_unknown_native_events_ignored (s : OrbitalBackend) :
    (∀ c, process_event s (NativeEvent.TextInput c) = s)
    ∧ (∀ x y, process_event s (NativeEvent.Scroll x y) = s)
    ∧ (∀ f, process_event s (NativeEvent.Focus f) = s)
    ∧ (∀ x y, process_event s (NativeEvent.MoveWindow x y) = s)
    ∧ (∀ a b, process_event s (NativeEvent.Screen a b) = s)
    ∧ (∀ n, process_event s (NativeEvent.Unknown n) = s) := by
  refine ⟨fun _ => rfl, fun _ _ => rfl, fun _ => rfl, fun _ _ => rfl,
    fun _ _ => rfl, fun _ => rfl⟩

/-- C5: the mouse event enqueued for a native Button event carries the
stored last recorded mouse position (the Button event itself has no
coordinates), the stored tri-state is overwritten with the incoming flags
only after the event is queued (so a MouseUp is attributed from the
previous tri-state), and a preceding native Mouse event determines the
position the Button event's mouse event carries. -/
theorem C5_button_position_and_state_order (s : OrbitalBackend)
    (l m r : Bool) (x y : Int) :
    (∃ b : MouseButton,
       (process_event s (NativeEvent.Button l m r)).event_queue
         = s.event_queue.register_event
             (if !l && !m && !r then Event.MouseUp b s.mouse_position
              else Event.MouseDown b s.mouse_position) 0)
    ∧ (process_event s (NativeEvent.Button l m r)).mouse_buttons = (l, m, r)
    ∧ (process_event s (NativeEvent.Button l m r)).mouse_position
        = s.mouse_position
    ∧ ((!l && !m && !r) = true →
        (process_event s (NativeEvent.Button l m r)).event_queue
          = s.event_queue.register_event
              (Event.MouseUp
                (if s.mouse_buttons.1 then MouseButton.Left
                 else if s.mouse_buttons.2.1 then MouseButton.Middle
                 else MouseButton.Right) s.mouse_position) 0)
    ∧ (∃ b : MouseButton,
        (process_event (process_event s (NativeEvent.Mouse x y))
            (NativeEvent.Button l m r)).event_queue
          = s.event_queue.register_event
              (if !l && !m && !r then Event.MouseUp b ⟨x, y⟩
               else Event.MouseDown b ⟨x, y⟩) 0) := by
  obtain ⟨⟨b1, b2, b3⟩, pos, q⟩ := s
  refine ⟨?_, ?_, ?_, ?_, ?_⟩
  · cases l <;> cases m <;> cases r <;> exact ⟨_, rfl⟩
  · cases l <;> cases m <;> cases r <;> rfl
  · cases l <;> cases m <;> cases r <;> rfl
  · intro h
    cases l <;> cases m <;> cases r <;> simp_all
    rfl
  · cases l <;> cases m <;> cases r <;> exact ⟨_, rfl⟩

/-- C5 witness: with left previously held, position (10, 20) and empty
queue, an all-false Button event enqueues a MouseUp for Left at (10, 20). -/
theorem C5_button_position_and_state_order_witness :
    (process_event ⟨(true, false, false), ⟨10, 20⟩, []⟩
        (NativeEvent.Button false false false)).event_queue
      = EventQueue.register_event []
          (Event.MouseUp MouseButton.Left ⟨10, 20⟩) 0 := by
  have h := (C5_button_position_and_state_order
    ⟨(true, false, false), ⟨10, 20⟩, []⟩ false false false 0 0).2.2.2.1 (by decide)
  simpa using h

/-- C7: exactly one mouse event is enqueued per native Button event even
when the incoming tri-state equals the stored one; an all-false Button
event on an already all-false stored tri-state enqueues a MouseUp
attributed to Right; and when any incoming flag is set the MouseDown is
attributed to the first pressed incoming button in the order left, middle,
right (so pressing middle while left is held is attributed to Left, not to
the newly changed button). -/
theorem C7_button_same_state_and_multi_press (s : OrbitalBackend)
    (l m r : Bool) :
    (process_event s (NativeEvent.Button l m r)).event_queue.length
      = s.event_queue.length + 1
    ∧ (∀ pos q, (process_event ⟨(false, false, false), pos, q⟩
          (NativeEvent.Button false false false)).event_queue
        = q.register_event (Event.MouseUp MouseButton.Right pos) 0)
    ∧ ((l || m || r) = true →
        (process_event s (NativeEvent.Button l m r)).event_queue
          = s.event_queue.register_event
              (Event.MouseDown
                (if l then MouseButton.Left
                 else if m then MouseButton.Middle
                 else MouseButton.Right) s.mouse_position) 0)
    ∧ (∀ pos q, (process_event ⟨(true, false, false), pos, q⟩
          (NativeEvent.Button true true false)).event_queue
        = q.register_event (Event.MouseDown MouseButton.Left pos) 0) := by
  obtain ⟨⟨b1, b2, b3⟩, pos, q⟩ := s
  refine ⟨?_, fun _ _ => rfl, ?_, fun _ _ => rfl⟩
  · cases l <;> cases m <;> cases r <;>
      simp [process_event, EventQueue.register_event]
  · intro h
    cases l <;> cases m <;> cases r <;> simp_all <;> rfl

/-- C7 witness: pressing middle while the incoming left flag is also set
enqueues a MouseDown attributed to Left. -/
theorem C7_button_same_state_and_multi_press_witness :
    (process_event ⟨(true, false, false), ⟨3, 4⟩, []⟩
        (NativeEvent.Button true true false)).event_queue
      = EventQueue.register_event []
          (Event.MouseDown MouseButton.Left ⟨3, 4⟩) 0 := by
  have h := (C7_button_same_state_and_multi_press
    ⟨(true, false, false), ⟨3, 4⟩, []⟩ true true false).2.2.1 (by decide)
  simpa using h

/-- C8: `drain_events` synchronizes the window first, so the events it
translates are the delivered ones followed by those still buffered at call
time (sync forces their delivery), leaving the window's event stream
empty; and a native Mouse (pointer-move) event only updates the stored
position — the event queue and the stored button tri-state are unchanged
and nothing is enqueued. -/
theorem C8_sync_first_and_mouse_move (s : OrbitalBackend) (w : OrbWindow)
    (x y : Int) :
    (s.drain_events w).1
      = List.foldl process_event s (w.delivered ++ w.buffered)
    ∧ (s.drain_events w).2 = { buffered := [], delivered := [] }
    ∧ (process_event s (NativeEvent.Mouse x y)).mouse_position = ⟨x, y⟩
    ∧ (process_event s (NativeEvent.Mouse x y)).event_queue = s.event_queue
    ∧ (process_event s (NativeEvent.Mouse x y)).mouse_buttons
        = s.mouse_buttons := by
  exact ⟨rfl, rfl, rfl, rfl, rfl⟩

/-- C3: when a world is attached and the keep-running flag passed the
check, the iteration performs the world tick strictly before the event
drain (trace order), the tick consumes exactly the event queue as it stood
at the start of the iteration (nothing modifies the queue before the tick
call), and the events drained in this iteration end up in the queue only
after the tick — visible to the world no earlier than the next iteration. -/
theorem C3_world_tick_precedes_drain (s : RunnerState) (w : World)
    (native : List NativeEvent) (h : s.world = some w) :
    (run_iteration s native).2
      = [Step.worldTick, Step.clearUpdate, Step.drainEvents]
    ∧ (run_iteration s native).1.world
        = some { processed := w.processed ++ s.backend.event_queue, ticks := w.ticks + 1 }
    ∧ (run_iteration s native).1.backend
        = List.foldl process_event { s.backend with event_queue := [] } native := by
  obtain ⟨ow, b, u⟩ := s
  simp only at h
  subst h
  exact ⟨rfl, rfl, rfl⟩

/-- C3 witness: concrete one-iteration run with an attached world. -/
theorem C3_world_tick_precedes_drain_witness :
    (run_iteration ⟨some ⟨[], 0⟩, OrbitalBackend.new, true⟩ []).2
      = [Step.worldTick, Step.clearUpdate, Step.drainEvents] :=
  (C3_world_tick_precedes_drain ⟨some ⟨[], 0⟩, OrbitalBackend.new, true⟩
    ⟨[], 0⟩ [] rfl).1

/-- Each iteration body advances the attached world's tick counter by at
most one. -/
theorem run_iteration_tickCount_le (s : RunnerState)
    (native : List NativeEvent) :
    (run_iteration s native).1.tickCount ≤ s.tickCount + 1 := by
  obtain ⟨ow, b, u⟩ := s
  cases ow <;> simp [run_iteration, RunnerState.tickCount, World.run]

/-- The loop adds at most one world tick per executed iteration body. -/
theorem run_loop_tickCount_le (s : RunnerState) (inputs : List IterInput) :
    (run_loop s inputs).1.tickCount
      ≤ s.tickCount + (run_loop s inputs).2 := by
  induction inputs generalizing s with
  | nil => simp [run_loop]
  | cons a rest ih =>
      cases ha : a.running with
      | false => simp [run_loop, ha]
      | true =>
          have h1 := run_iteration_tickCount_le s a.native
          have h2 := ih (run_iteration s a.native).1
          simp only [run_loop, ha, Bool.not_true, Bool.false_eq_true,
            if_false]
          omega

/-- Once the running flag reads false at the check of iteration `k`, no
iteration body at or after `k` executes. -/
theorem run_loop_stops_le (s : RunnerState) (inputs : List IterInput)
    (k : Nat) (inp : IterInput) (h1 : inputs[k]? = some inp)
    (h2 : inp.running = false) :
    (run_loop s inputs).2 ≤ k := by
  induction inputs generalizing s k with
  | nil => simp at h1
  | cons a rest ih =>
      cases k with
      | zero =>
          simp only [List.getElem?_cons_zero, Option.some.injEq] at h1
          subst h1
          simp [run_loop, h2]
      | succ k =>
          simp only [List.getElem?_cons_succ] at h1
          cases ha : a.running with
          | false => simp [run_loop, ha]
          | true =>
              have := ih (run_iteration s a.native).1 k h1
              simp only [run_loop, ha, Bool.not_true, Bool.false_eq_true,
                if_false]
              omega

/-- C4: if the shared keep-running flag reads false at the check of
iteration `k`, the loop executes at most `k` iteration bodies (so at most
`k` further world ticks happen), and a flag already false at the start of
an iteration terminates the loop immediately, leaving the state untouched. -/
theorem C4_running_flag_terminates (s : RunnerState)
    (inputs : List IterInput) (k : Nat) (inp : IterInput)
    (h1 : inputs[k]? = some inp) (h2 : inp.running = false) :
    (run_loop s inputs).2 ≤ k
    ∧ (run_loop s inputs).1.tickCount ≤ s.tickCount + k
    ∧ (∀ evs rest,
        run_loop s (({ running := false, native := evs } : IterInput) :: rest)
          = (s, 0)) := by
  have hstop := run_loop_stops_le s inputs k inp h1 h2
  have htick := run_loop_tickCount_le s inputs
  exact ⟨hstop, by omega, fun evs rest => rfl⟩

/-- C4 witness: a run whose second iteration reads the flag as false
executes at most one iteration body. -/
theorem C4_running_flag_terminates_witness :
    (run_loop ⟨some ⟨[], 0⟩, OrbitalBackend.new, true⟩
        [⟨true, []⟩, ⟨false, []⟩, ⟨true, []⟩]).2 ≤ 1 :=
  (C4_running_flag_terminates ⟨some ⟨[], 0⟩, OrbitalBackend.new, true⟩
    [⟨true, []⟩, ⟨false, []⟩, ⟨true, []⟩] 1 ⟨false, []⟩ rfl rfl).1

/-- C9: with no world attached the iteration is a silent no-op on the
world tick — it is total (no error), performs no world tick, still clears
the update flag and still drains backend events, and the loop continues
with the next iteration whenever the flag still reads true. -/
theorem C9_no_world_attached_noop (s : RunnerState)
    (native : List NativeEvent) (h : s.world = none) :
    (run_iteration s native).2 = [Step.clearUpdate, Step.drainEvents]
    ∧ (run_iteration s native).1.world = none
    ∧ (run_iteration s native).1.update = false
    ∧ (run_iteration s native).1.backend
        = List.foldl process_event s.backend native
    ∧ (∀ (inp : IterInput) rest, inp.running = true →
        (run_loop s (inp :: rest)).2
          = (run_loop (run_iteration s inp.native).1 rest).2 + 1) := by
  obtain ⟨ow, b, u⟩ := s
  simp only at h
  subst h
  refine ⟨rfl, rfl, rfl, rfl, ?_⟩
  intro inp rest hr
  simp [run_loop, hr]

/-- C9 witness: concrete iteration with no world attached. -/
theorem C9_no_world_attached_noop_witness :
    (run_iteration ⟨none, OrbitalBackend.new, true⟩ []).2
      = [Step.clearUpdate, Step.drainEvents] :=
  (C9_no_world_attached_noop ⟨none, OrbitalBackend.new, true⟩ [] rfl).1

/-- C6: a ScrollViewer with no child yields the empty template, and one
with a child yields the single-child template referencing that same
(shared) child, with no recursive expansion. -/
theorem C6_scroll_viewer_template {W : Type} (s : ScrollViewer W) :
    (s.child = none → s.template = Template.Empty)
    ∧ (∀ c, s.child = some c → s.template = Template.Single c) := by
  obtain ⟨c, o⟩ := s
  refine ⟨fun h => ?_, fun x h => ?_⟩ <;>
    simp only at h <;> subst h <;> rfl

/-- C6 witness: the default ScrollViewer (no child) and one holding a
concrete child. -/
theorem C6_scroll_viewer_template_witness :
    (ScrollViewer.default Nat).template = Template.Empty
    ∧ ({ child := some 5, offset := Property.new Offset.default } :
        ScrollViewer Nat).template = Template.Single 5 :=
  ⟨(C6_scroll_viewer_template (ScrollViewer.default Nat)).1 rfl,
   (C6_scroll_viewer_template
     { child := some 5, offset := Property.new Offset.default }).2 5 rfl⟩

end OrbTk
